import Mathlib

/-!
Verification of `ptfe-stepdown-twistlock`.

Shallow embedding of `src/twist_snap.py` and `src/src/ptfe_fittings.py`.
Python floats are modelled by `ℚ` (arithmetic on them by exact rational
arithmetic), Python ints by `ℤ`.  The `ConfigParser` store maps a
`(section, option)` pair of strings to a stored value; property setters
store `str(value)` and getters parse the stored string with `getfloat` /
`getint`.  `str` followed by `float(...)` is exact for every finite CPython
float (shortest-round-trip repr), so a stored float string is modelled by
the rational it denotes; `str` of a float always contains a `.` or an
exponent and is therefore never a valid integer literal, while `str` of an
int is one, so a stored value keeps the int/float distinction, which is
what `getint` (i.e. `int(str(value))`) observes.
-/

namespace TwistSnap

/-- A value held in the configuration store: the setters store `str(value)`;
we keep the numeric value together with whether it was an int or a float,
which determines whether the stored string is a valid integer literal. -/
inductive StoredNum where
  | int : ℤ → StoredNum
  | float : ℚ → StoredNum
deriving DecidableEq, Repr

/-- The number denoted by the stored string, as `float(s)` parses it
(`configparser.getfloat` conversion). -/
def StoredNum.toFloatVal : StoredNum → ℚ
  | .int n => (n : ℚ)
  | .float q => q

/-- `int(s)` on the stored string (`configparser.getint` conversion):
succeeds on an integer literal, raises `ValueError` on a float literal
(`str` of a float always contains `.` or an exponent). -/
def StoredNum.toIntVal : StoredNum → Except String ℤ
  | .int n => Except.ok n
  | .float _ => Except.error "ValueError"

/-- The `ConfigParser` key-value store: `(section, option) → stored value`.
Section bookkeeping (`add_section`) is absorbed into `set`, since every
setter in the source adds its section before writing. -/
def Config : Type := String → String → Option StoredNum

/-- A fresh `ConfigParser()` holds nothing. -/
def Config.empty : Config := fun _ _ => none

/-- `config.set(sec, opt, str(v))`. -/
def Config.set (c : Config) (sec opt : String) (v : StoredNum) : Config :=
  fun s o => if s = sec ∧ o = opt then some v else c s o

/-- `config.getfloat(sec, opt, fallback=fb)`: parse the stored string with
`float`, or return the fallback when the section/option is missing. -/
def Config.getfloat (c : Config) (sec opt : String) (fb : ℚ) : ℚ :=
  match c sec opt with
  | some v => v.toFloatVal
  | none => fb

/-- `config.getint(sec, opt, fallback=fb)`: parse the stored string with
`int` (raising `ValueError` on a float literal), or return the fallback
when the section/option is missing. -/
def Config.getint (c : Config) (sec opt : String) (fb : ℤ) : Except String ℤ :=
  match c sec opt with
  | some v => v.toIntVal
  | none => Except.ok fb

@[simp] theorem Config.set_lookup (c : Config) (sec opt s o : String) (v : StoredNum) :
    Config.set c sec opt v s o = if s = sec ∧ o = opt then some v else c s o := rfl

/-- The state of a `TwistSnapConnector`: the plain attribute
`connector_diameter` and the `ConfigParser` store behind every `@property`. -/
structure TwistSnapConnector where
  connector_diameter : ℚ
  config : Config

/-- Getter `wall_width`: `config.getfloat('general', 'wall_width', fallback=2)`. -/
def wall_width (c : TwistSnapConnector) : ℚ :=
  c.config.getfloat "general" "wall_width" 2

/-- Getter `wall_depth`: `config.getfloat('general', 'wall_depth', fallback=2)`. -/
def wall_depth (c : TwistSnapConnector) : ℚ :=
  c.config.getfloat "general" "wall_depth" 2

/-- Getter `tolerance`: `config.getfloat('general', 'tolerance', fallback=.1)`. -/
def tolerance (c : TwistSnapConnector) : ℚ :=
  c.config.getfloat "general" "tolerance" (1/10)

/-- Getter `grip_diameter`: `config.getfloat('grip', 'diameter', fallback=6)`. -/
def grip_diameter (c : TwistSnapConnector) : ℚ :=
  c.config.getfloat "grip" "diameter" 6

/-- Getter `snapfit_radius_extension`:
`config.getfloat('snapfit', 'radius_extension', fallback=self.wall_width*2/3)`. -/
def snapfit_radius_extension (c : TwistSnapConnector) : ℚ :=
  c.config.getfloat "snapfit" "radius_extension" (wall_width c * 2 / 3)

/-- Getter `snapfit_height`:
`config.getfloat('snapfit', 'height', fallback=self.wall_depth)`. -/
def snapfit_height (c : TwistSnapConnector) : ℚ :=
  c.config.getfloat "snapfit" "height" (wall_depth c)

/-- Getter `arc_percentage`:
`config.getfloat('snapfit', 'arc_percentage', fallback=10)`. -/
def arc_percentage (c : TwistSnapConnector) : ℚ :=
  c.config.getfloat "snapfit" "arc_percentage" 10

/-- Getter `snapfit_count`: `config.getint('snapfit', 'count', fallback=4)`. -/
def snapfit_count (c : TwistSnapConnector) : Except String ℤ :=
  c.config.getint "snapfit" "count" 4

/-- Setter `wall_width`: writes `str(value)` to `('general', 'wall_width')`. -/
def set_wall_width (c : TwistSnapConnector) (v : StoredNum) : TwistSnapConnector :=
  { c with config := c.config.set "general" "wall_width" v }

/-- Setter `wall_depth`: writes `str(value)` to `('general', 'wall_depth')`. -/
def set_wall_depth (c : TwistSnapConnector) (v : StoredNum) : TwistSnapConnector :=
  { c with config := c.config.set "general" "wall_depth" v }

/-- Setter `tolerance`: writes `str(value)` to `('general', 'tolerance')`. -/
def set_tolerance (c : TwistSnapConnector) (v : StoredNum) : TwistSnapConnector :=
  { c with config := c.config.set "general" "tolerance" v }

/-- Setter `grip_diameter`: writes `str(value)` to `('grip', 'diameter')`. -/
def set_grip_diameter (c : TwistSnapConnector) (v : StoredNum) : TwistSnapConnector :=
  { c with config := c.config.set "grip" "diameter" v }

/-- Setter `snapfit_radius_extension`: writes `str(value)` to
`('snapfit', 'radius_extension')`. -/
def set_snapfit_radius_extension (c : TwistSnapConnector) (v : StoredNum) : TwistSnapConnector :=
  { c with config := c.config.set "snapfit" "radius_extension" v }

/-- Setter `snapfit_height`: writes `str(value)` to `('snapfit', 'height')`. -/
def set_snapfit_height (c : TwistSnapConnector) (v : StoredNum) : TwistSnapConnector :=
  { c with config := c.config.set "snapfit" "height" v }

/-- Setter `arc_percentage`: writes `str(value)` to `('snapfit', 'arc_percentage')`. -/
def set_arc_percentage (c : TwistSnapConnector) (v : StoredNum) : TwistSnapConnector :=
  { c with config := c.config.set "snapfit" "arc_percentage" v }

/-- Setter `snapfit_count`: writes `str(value)` to `('snapfit', 'count')`
without any validation. -/
def set_snapfit_count (c : TwistSnapConnector) (v : StoredNum) : TwistSnapConnector :=
  { c with config := c.config.set "snapfit" "count" v }

/-- `TwistSnapConnector.__init__(connector_diameter, wall_size, tolerance)`:
sets the plain attribute `connector_diameter`, then writes
`grip_diameter = connector_diameter + wall_size * 2`, `wall_depth = wall_size`,
`wall_width = wall_size` and `tolerance = tolerance` through the property
setters, in that order, starting from an empty `ConfigParser()`. -/
def init (connector_diameter wall_size tolerance : ℚ) : TwistSnapConnector :=
  set_tolerance
    (set_wall_width
      (set_wall_depth
        (set_grip_diameter
          { connector_diameter := connector_diameter, config := Config.empty }
          (.float (connector_diameter + wall_size * 2)))
        (.float wall_size))
      (.float wall_size))
    (.float tolerance)

/-- C2: after `TwistSnapConnector(d, w, t)`, the plain attribute
`connector_diameter` is `d` and the config-backed getters read back the
constructor's writes unchanged: `grip_diameter = d + 2*w`,
`wall_depth = w`, `wall_width = w`, `tolerance = t`. -/
theorem init_getters_read_back (d w t : ℚ) :
    (init d w t).connector_diameter = d ∧
    grip_diameter (init d w t) = d + 2 * w ∧
    wall_depth (init d w t) = w ∧
    wall_width (init d w t) = w ∧
    tolerance (init d w t) = t := by
  refine ⟨rfl, ?_, ?_, ?_, ?_⟩ <;>
    simp [init, grip_diameter, wall_depth, wall_width, tolerance,
      set_tolerance, set_wall_width, set_wall_depth, set_grip_diameter,
      Config.set, Config.getfloat, StoredNum.toFloatVal, mul_comm]

/-- C3: on a freshly constructed `TwistSnapConnector` (no config file
loaded, no snapfit setter called) the snapfit getters return their
fallbacks: `snapfit_radius_extension = wall_width * 2/3`,
`snapfit_height = wall_depth`, `arc_percentage = 10`, `snapfit_count = 4`. -/
theorem init_snapfit_defaults (d w t : ℚ) :
    snapfit_radius_extension (init d w t) = wall_width (init d w t) * 2 / 3 ∧
    snapfit_height (init d w t) = wall_depth (init d w t) ∧
    arc_percentage (init d w t) = 10 ∧
    snapfit_count (init d w t) = Except.ok 4 := by
  refine ⟨?_, ?_, ?_, ?_⟩ <;>
    simp [init, snapfit_radius_extension, snapfit_height, arc_percentage,
      snapfit_count, wall_width, wall_depth,
      set_tolerance, set_wall_width, set_wall_depth, set_grip_diameter,
      Config.set, Config.getfloat, Config.getint, Config.empty,
      StoredNum.toFloatVal]

/-- C8: for every float value `v` and every float-backed config property
(`snapfit_radius_extension`, `snapfit_height`, `arc_percentage`,
`grip_diameter`, `wall_depth`, `wall_width`, `tolerance`), setting `v`
(stored as `str(v)`) and reading back through `getfloat` returns exactly
`v`. -/
theorem set_get_float_roundtrip (c : TwistSnapConnector) (v : ℚ) :
    snapfit_radius_extension (set_snapfit_radius_extension c (.float v)) = v ∧
    snapfit_height (set_snapfit_height c (.float v)) = v ∧
    arc_percentage (set_arc_percentage c (.float v)) = v ∧
    grip_diameter (set_grip_diameter c (.float v)) = v ∧
    wall_depth (set_wall_depth c (.float v)) = v ∧
    wall_width (set_wall_width c (.float v)) = v ∧
    tolerance (set_tolerance c (.float v)) = v := by
  refine ⟨?_, ?_, ?_, ?_, ?_, ?_, ?_⟩ <;>
    simp [snapfit_radius_extension, snapfit_height, arc_percentage,
      grip_diameter, wall_depth, wall_width, tolerance,
      set_snapfit_radius_extension, set_snapfit_height, set_arc_percentage,
      set_grip_diameter, set_wall_depth, set_wall_width, set_tolerance,
      Config.set, Config.getfloat, StoredNum.toFloatVal]

/-- C10: the `snapfit_count` setter stores `str(value)` without validation;
`getint` then succeeds exactly on stored integer literals, so the
set-then-get round-trip holds for every int value, while any stored float
value (its `str` is never a valid integer literal) makes the getter raise
`ValueError`. -/
theorem snapfit_count_roundtrip_int_only (c : TwistSnapConnector) :
    (∀ n : ℤ, snapfit_count (set_snapfit_count c (.int n)) = Except.ok n) ∧
    (∀ q : ℚ, snapfit_count (set_snapfit_count c (.float q)) =
      Except.error "ValueError") := by
  constructor <;> intro x <;>
    simp [snapfit_count, set_snapfit_count, Config.set, Config.getint,
      StoredNum.toIntVal]

/-- C9 fails as stated: on `TwistSnapConnector(10, 2, 0.1)` (where no
snapfit option is stored), calling the `wall_width` setter with `5` changes
the value returned by the `snapfit_radius_extension` getter (from `4/3` to
`10/3`), because that getter's fallback reads `wall_width`. -/
theorem set_wall_width_changes_snapfit_radius_extension :
    snapfit_radius_extension (set_wall_width (init 10 2 (1/10)) (.float 5)) ≠
    snapfit_radius_extension (init 10 2 (1/10)) := by
  simp [snapfit_radius_extension, wall_width, set_wall_width, init,
    set_tolerance, set_wall_depth, set_grip_diameter,
    Config.set, Config.getfloat, Config.empty, StoredNum.toFloatVal]
  norm_num

/-- C9 (amended): every config-backed setter writes only its own
`(section, option)` pair in the store (every other store entry is
unchanged), and every other getter returns an unchanged value, except that
`snapfit_radius_extension` can change after a `wall_width` write and
`snapfit_height` after a `wall_depth` write, since those getters' fallbacks
read `wall_width` resp. `wall_depth` when their own option is unset. -/
theorem setter_frame_amended (c : TwistSnapConnector) (v : StoredNum) :
    (∀ s o : String, ¬(s = "snapfit" ∧ o = "radius_extension") →
      (set_snapfit_radius_extension c v).config s o = c.config s o) ∧
    (∀ s o : String, ¬(s = "snapfit" ∧ o = "height") →
      (set_snapfit_height c v).config s o = c.config s o) ∧
    (∀ s o : String, ¬(s = "snapfit" ∧ o = "arc_percentage") →
      (set_arc_percentage c v).config s o = c.config s o) ∧
    (∀ s o : String, ¬(s = "snapfit" ∧ o = "count") →
      (set_snapfit_count c v).config s o = c.config s o) ∧
    (∀ s o : String, ¬(s = "grip" ∧ o = "diameter") →
      (set_grip_diameter c v).config s o = c.config s o) ∧
    (∀ s o : String, ¬(s = "general" ∧ o = "wall_depth") →
      (set_wall_depth c v).config s o = c.config s o) ∧
    (∀ s o : String, ¬(s = "general" ∧ o = "wall_width") →
      (set_wall_width c v).config s o = c.config s o) ∧
    (∀ s o : String, ¬(s = "general" ∧ o = "tolerance") →
      (set_tolerance c v).config s o = c.config s o) ∧
    (snapfit_height (set_snapfit_radius_extension c v) = snapfit_height c ∧
     arc_percentage (set_snapfit_radius_extension c v) = arc_percentage c ∧
     snapfit_count (set_snapfit_radius_extension c v) = snapfit_count c ∧
     grip_diameter (set_snapfit_radius_extension c v) = grip_diameter c ∧
     wall_depth (set_snapfit_radius_extension c v) = wall_depth c ∧
     wall_width (set_snapfit_radius_extension c v) = wall_width c ∧
     tolerance (set_snapfit_radius_extension c v) = tolerance c) ∧
    (snapfit_radius_extension (set_snapfit_height c v) = snapfit_radius_extension c ∧
     arc_percentage (set_snapfit_height c v) = arc_percentage c ∧
     snapfit_count (set_snapfit_height c v) = snapfit_count c ∧
     grip_diameter (set_snapfit_height c v) = grip_diameter c ∧
     wall_depth (set_snapfit_height c v) = wall_depth c ∧
     wall_width (set_snapfit_height c v) = wall_width c ∧
     tolerance (set_snapfit_height c v) = tolerance c) ∧
    (snapfit_radius_extension (set_arc_percentage c v) = snapfit_radius_extension c ∧
     snapfit_height (set_arc_percentage c v) = snapfit_height c ∧
     snapfit_count (set_arc_percentage c v) = snapfit_count c ∧
     grip_diameter (set_arc_percentage c v) = grip_diameter c ∧
     wall_depth (set_arc_percentage c v) = wall_depth c ∧
     wall_width (set_arc_percentage c v) = wall_width c ∧
     tolerance (set_arc_percentage c v) = tolerance c) ∧
    (snapfit_radius_extension (set_snapfit_count c v) = snapfit_radius_extension c ∧
     snapfit_height (set_snapfit_count c v) = snapfit_height c ∧
     arc_percentage (set_snapfit_count c v) = arc_percentage c ∧
     grip_diameter (set_snapfit_count c v) = grip_diameter c ∧
     wall_depth (set_snapfit_count c v) = wall_depth c ∧
     wall_width (set_snapfit_count c v) = wall_width c ∧
     tolerance (set_snapfit_count c v) = tolerance c) ∧
    (snapfit_radius_extension (set_grip_diameter c v) = snapfit_radius_extension c ∧
     snapfit_height (set_grip_diameter c v) = snapfit_height c ∧
     arc_percentage (set_grip_diameter c v) = arc_percentage c ∧
     snapfit_count (set_grip_diameter c v) = snapfit_count c ∧
     wall_depth (set_grip_diameter c v) = wall_depth c ∧
     wall_width (set_grip_diameter c v) = wall_width c ∧
     tolerance (set_grip_diameter c v) = tolerance c) ∧
    (snapfit_radius_extension (set_wall_depth c v) = snapfit_radius_extension c ∧
     arc_percentage (set_wall_depth c v) = arc_percentage c ∧
     snapfit_count (set_wall_depth c v) = snapfit_count c ∧
     grip_diameter (set_wall_depth c v) = grip_diameter c ∧
     wall_width (set_wall_depth c v) = wall_width c ∧
     tolerance (set_wall_depth c v) = tolerance c) ∧
    (snapfit_height (set_wall_width c v) = snapfit_height c ∧
     arc_percentage (set_wall_width c v) = arc_percentage c ∧
     snapfit_count (set_wall_width c v) = snapfit_count c ∧
     grip_diameter (set_wall_width c v) = grip_diameter c ∧
     wall_depth (set_wall_width c v) = wall_depth c ∧
     tolerance (set_wall_width c v) = tolerance c) ∧
    (snapfit_radius_extension (set_tolerance c v) = snapfit_radius_extension c ∧
     snapfit_height (set_tolerance c v) = snapfit_height c ∧
     arc_percentage (set_tolerance c v) = arc_percentage c ∧
     snapfit_count (set_tolerance c v) = snapfit_count c ∧
     grip_diameter (set_tolerance c v) = grip_diameter c ∧
     wall_depth (set_tolerance c v) = wall_depth c ∧
     wall_width (set_tolerance c v) = wall_width c) := by
  refine ⟨?_, ?_, ?_, ?_, ?_, ?_, ?_, ?_, ?_, ?_, ?_, ?_, ?_, ?_, ?_, ?_⟩ <;>
    first
    | (intro s o h
       simp [set_snapfit_radius_extension, set_snapfit_height, set_arc_percentage,
         set_snapfit_count, set_grip_diameter, set_wall_depth, set_wall_width,
         set_tolerance, Config.set, h])
    | (refine ⟨?_, ?_, ?_, ?_, ?_, ?_, ?_⟩ <;>
       simp [snapfit_radius_extension, snapfit_height, arc_percentage,
         snapfit_count, grip_diameter, wall_depth, wall_width, tolerance,
         set_snapfit_radius_extension, set_snapfit_height, set_arc_percentage,
         set_snapfit_count, set_grip_diameter, set_wall_depth, set_wall_width,
         set_tolerance, Config.set, Config.getfloat, Config.getint])
    | (refine ⟨?_, ?_, ?_, ?_, ?_, ?_⟩ <;>
       simp [snapfit_radius_extension, snapfit_height, arc_percentage,
         snapfit_count, grip_diameter, wall_depth, wall_width, tolerance,
         set_snapfit_radius_extension, set_snapfit_height, set_arc_percentage,
         set_snapfit_count, set_grip_diameter, set_wall_depth, set_wall_width,
         set_tolerance, Config.set, Config.getfloat, Config.getint])

/-- Witness for C9 (amended): a concrete instance of the store-frame part,
on `TwistSnapConnector(10, 2, 0.1)` after writing `snapfit_radius_extension`. -/
theorem setter_frame_amended_witness :
    ¬("general" = "snapfit" ∧ "wall_width" = "radius_extension") ∧
    (set_snapfit_radius_extension (init 10 2 (1/10)) (.float 7)).config
        "general" "wall_width" =
      (init 10 2 (1/10)).config "general" "wall_width" :=
  ⟨by decide,
   (setter_frame_amended (init 10 2 (1/10)) (.float 7)).1
     "general" "wall_width" (by decide)⟩

/-- `math.radians`: degrees to radians. -/
noncomputable def radians (angle : ℝ) : ℝ := angle * (Real.pi / 180)

/-- `angular_intersection(radius, angle)` from `src/twist_snap.py`:
`angle_radians = radians(angle)`, then
`(radius * cos(angle_radians), radius * sin(angle_radians))`. -/
noncomputable def angular_intersection (radius angle : ℝ) : ℝ × ℝ :=
  (radius * Real.cos (radians angle), radius * Real.sin (radians angle))

/-- C1: `angular_intersection(r, a)` returns
`(r * cos(radians(a)), r * sin(radians(a)))` with the angle converted from
degrees to radians first, and the returned point lies on the circle of
radius `r` (its coordinates satisfy `x² + y² = r²`). -/
theorem angular_intersection_spec (r a : ℝ) :
    angular_intersection r a =
      (r * Real.cos (a * (Real.pi / 180)), r * Real.sin (a * (Real.pi / 180))) ∧
    (angular_intersection r a).1 ^ 2 + (angular_intersection r a).2 ^ 2 = r ^ 2 := by
  refine ⟨rfl, ?_⟩
  simp only [angular_intersection]
  linear_combination (r : ℝ) ^ 2 * Real.sin_sq_add_cos_sq (radians a)

/-- The fillet radius applied to the snap-fit tab's outer vertical edges in
`twist_snap_connector`:
`min(self.snapfit_radius_extension / 8, snapfit.part.max_fillet(...))`,
with the kernel-reported maximum feasible radius `max_fillet` treated as an
oracle input. -/
def connector_fillet_radius (c : TwistSnapConnector) (max_fillet : ℚ) : ℚ :=
  min (snapfit_radius_extension c / 8) max_fillet

/-- C4: the fillet radius in `twist_snap_connector` equals the minimum of
`snapfit_radius_extension / 8` and the kernel-reported maximum feasible
fillet radius, and in particular never exceeds
`snapfit_radius_extension / 8`. -/
theorem connector_fillet_radius_clamped (c : TwistSnapConnector) (m : ℚ) :
    connector_fillet_radius c m = min (snapfit_radius_extension c / 8) m ∧
    connector_fillet_radius c m ≤ snapfit_radius_extension c / 8 :=
  ⟨rfl, min_le_left _ _⟩

/-- Start parameter of the sweep-path trim in `twist_snap_connector`:
`path.trim(self.arc_percentage / -200, ...)`, as a fraction of the closed
circular edge's full parameter range. -/
def connector_trim_start (c : TwistSnapConnector) : ℚ :=
  arc_percentage c / (-200)

/-- End parameter of the sweep-path trim in `twist_snap_connector`:
`path.trim(..., self.arc_percentage/200)`. -/
def connector_trim_end (c : TwistSnapConnector) : ℚ :=
  arc_percentage c / 200

/-- C5: the tab sweep path in `twist_snap_connector` is trimmed
symmetrically about the edge's reference point (the trim bounds sum to
zero), and the trimmed arc spans exactly `arc_percentage` percent of the
full circle (the spanned fraction times 100 is `arc_percentage`). -/
theorem connector_trim_spec (c : TwistSnapConnector) :
    connector_trim_start c + connector_trim_end c = 0 ∧
    connector_trim_end c - connector_trim_start c = arc_percentage c / 100 ∧
    (connector_trim_end c - connector_trim_start c) * 100 = arc_percentage c := by
  refine ⟨?_, ?_, ?_⟩ <;> (unfold connector_trim_start connector_trim_end; ring)

/-- The locations generated by `build123d`'s `PolarLocations(radius, count)`
with its default `start_angle=0` and full 360° range: `count` placements,
the `i`-th at radial distance `radius` and angle `i * 360 / count` degrees
about the Z axis.  Each location is modelled as the pair
`(radial distance, angle in degrees)`. -/
def polarLocations (radius : ℚ) (count : ℕ) : List (ℚ × ℚ) :=
  (List.range count).map (fun i : ℕ => (radius, (i : ℚ) * (360 / (count : ℚ))))

/-- The placements of the snap-fit tab in `twist_snap_connector`:
`with PolarLocations(0, self.snapfit_count): add(snapfit.part)` — a polar
array of radius 0 with `snapfit_count` copies (empty if reading
`snapfit_count` raises). -/
def connector_tab_locations (c : TwistSnapConnector) : List (ℚ × ℚ) :=
  match snapfit_count c with
  | .ok n => polarLocations 0 n.toNat
  | .error _ => []

theorem polarLocations_length (r : ℚ) (count : ℕ) :
    (polarLocations r count).length = count := by
  simp [polarLocations]

theorem polarLocations_getD (r : ℚ) (count i : ℕ) (hi : i < count) :
    (polarLocations r count).getD i (0, 0) =
      (r, (i : ℚ) * (360 / (count : ℚ))) := by
  rw [polarLocations, List.getD_eq_getElem?_getD, List.getElem?_map]
  simp [List.getElem?_range, hi]

/-- C6: when `snapfit_count` reads as `n ≥ 1`, `twist_snap_connector`
places exactly `n` tab copies, all at radius 0, evenly spaced at an angular
pitch of `360 / n` degrees. -/
theorem connector_tab_placement (c : TwistSnapConnector) (n : ℤ)
    (hc : snapfit_count c = Except.ok n) (hn : 1 ≤ n) :
    (connector_tab_locations c).length = n.toNat ∧
    (∀ loc ∈ connector_tab_locations c, loc.1 = 0) ∧
    (∀ i : ℕ, i + 1 < n.toNat →
      ((connector_tab_locations c).getD (i + 1) (0, 0)).2 -
        ((connector_tab_locations c).getD i (0, 0)).2 = 360 / (n : ℚ)) := by
  have hcast : ((n.toNat : ℕ) : ℚ) = (n : ℚ) := by
    exact_mod_cast congrArg (fun z : ℤ => (z : ℚ))
      (Int.toNat_of_nonneg (le_trans zero_le_one hn))
  have hcl : connector_tab_locations c = polarLocations 0 n.toNat := by
    simp [connector_tab_locations, hc]
  refine ⟨?_, ?_, ?_⟩
  · rw [hcl, polarLocations_length]
  · intro loc hloc
    rw [hcl, polarLocations] at hloc
    obtain ⟨i, -, rfl⟩ := List.mem_map.mp hloc
    rfl
  · intro i hi
    have hi' : i < n.toNat := Nat.lt_of_succ_lt hi
    rw [hcl, polarLocations_getD 0 n.toNat (i + 1) hi,
      polarLocations_getD 0 n.toNat i hi']
    simp only
    rw [hcast]
    push_cast
    ring

/-- Witness for C6: on `TwistSnapConnector(10, 2, 0.1)`, `snapfit_count`
reads as 4 and four tabs are placed. -/
theorem connector_tab_placement_witness :
    snapfit_count (init 10 2 (1/10)) = Except.ok 4 ∧ (1 : ℤ) ≤ 4 ∧
    (connector_tab_locations (init 10 2 (1/10))).length = (4 : ℤ).toNat := by
  have hc : snapfit_count (init 10 2 (1/10)) = Except.ok 4 := by
    simp [snapfit_count, init, set_tolerance, set_wall_width, set_wall_depth,
      set_grip_diameter, Config.set, Config.getint, Config.empty]
  exact ⟨hc, by decide,
    (connector_tab_placement (init 10 2 (1/10)) 4 hc (by decide)).1⟩

/-- The cutting solid built by `tapered_tube_path` in
`src/src/ptfe_fittings.py`: a Z-aligned cylinder of radius
`external_radius` and height `length - taper_length` with its base on the
XY plane (`Align.MIN` on Z), and a loft from a circle of radius
`taper_start_radius` on the cylinder's top face to a circle of radius
`taper_end_radius` on that face offset by `taper_length`.  Each piece is
recorded by its radius data and its Z interval. -/
structure TaperedTubePath where
  cylinder_radius : ℚ
  cylinder_zmin : ℚ
  cylinder_zmax : ℚ
  taper_start_radius : ℚ
  taper_end_radius : ℚ
  taper_zmin : ℚ
  taper_zmax : ℚ

/-- `tapered_tube_path(external_radius, taper_start_radius,
taper_end_radius, taper_length, length)`. -/
def tapered_tube_path (external_radius taper_start_radius taper_end_radius
    taper_length length : ℚ) : TaperedTubePath :=
  { cylinder_radius := external_radius
    cylinder_zmin := 0
    cylinder_zmax := length - taper_length
    taper_start_radius := taper_start_radius
    taper_end_radius := taper_end_radius
    taper_zmin := length - taper_length
    taper_zmax := (length - taper_length) + taper_length }

/-- C7: for `0 ≤ taper_length ≤ length`, the cut built by
`tapered_tube_path` spans exactly `length` along Z: the cylinder of radius
`external_radius` runs from 0 to `length - taper_length`, and the loft from
radius `taper_start_radius` to radius `taper_end_radius` sits on top of it
over height `taper_length`, both intervals being well formed. -/
theorem tapered_tube_path_extent (er tsr ter tl L : ℚ)
    (h0 : 0 ≤ tl) (h1 : tl ≤ L) :
    (tapered_tube_path er tsr ter tl L).taper_zmax -
      (tapered_tube_path er tsr ter tl L).cylinder_zmin = L ∧
    (tapered_tube_path er tsr ter tl L).cylinder_zmin = 0 ∧
    (tapered_tube_path er tsr ter tl L).cylinder_zmax = L - tl ∧
    (tapered_tube_path er tsr ter tl L).cylinder_radius = er ∧
    (tapered_tube_path er tsr ter tl L).taper_zmin =
      (tapered_tube_path er tsr ter tl L).cylinder_zmax ∧
    (tapered_tube_path er tsr ter tl L).taper_zmax -
      (tapered_tube_path er tsr ter tl L).taper_zmin = tl ∧
    (tapered_tube_path er tsr ter tl L).taper_start_radius = tsr ∧
    (tapered_tube_path er tsr ter tl L).taper_end_radius = ter ∧
    (tapered_tube_path er tsr ter tl L).cylinder_zmin ≤
      (tapered_tube_path er tsr ter tl L).cylinder_zmax ∧
    (tapered_tube_path er tsr ter tl L).cylinder_zmax ≤
      (tapered_tube_path er tsr ter tl L).taper_zmax := by
  refine ⟨by simp [tapered_tube_path], rfl, rfl, rfl, rfl,
    by simp [tapered_tube_path], rfl, rfl, ?_, ?_⟩
  · simpa [tapered_tube_path] using sub_nonneg.mpr h1
  · simp only [tapered_tube_path]
    linarith

/-- Witness for C7: `tapered_tube_path(3, 1, 2, 4, 10)` spans 10 along Z. -/
theorem tapered_tube_path_extent_witness :
    (0 : ℚ) ≤ 4 ∧ (4 : ℚ) ≤ 10 ∧
    (tapered_tube_path 3 1 2 4 10).taper_zmax -
      (tapered_tube_path 3 1 2 4 10).cylinder_zmin = 10 :=
  ⟨by norm_num, by norm_num,
   (tapered_tube_path_extent 3 1 2 4 10 (by norm_num) (by norm_num)).1⟩

end TwistSnap
